import Mathlib

/-!
Shallow embedding of the flightaware repository (src/flight-info.py and
src/flight-search.py) and proofs about its lookup and rendering behaviour.

The provider response body is modelled as a decoded JSON value; Python
operations used by the code (`dict.get`, `in`, subscripting, truthiness,
`str()` formatting) are embedded as total Lean functions returning
`Except PyErr _` where the Python operation can raise.
-/

set_option autoImplicit false

/-- JSON values as produced by decoding a response body with `response.json()`.
Numbers are modelled as integers; no claim depends on fractional numbers. -/
inductive JsonValue where
  | null
  | bool (b : Bool)
  | num (n : Int)
  | str (s : String)
  | arr (elems : List JsonValue)
  | obj (fields : List (String × JsonValue))

/-- Kinds of Python exception the embedded service code can raise. -/
inductive PyErr where
  | attributeError
  | typeError
  | keyError
  | indexError
  | validationError
  | jsonDecodeError
deriving DecidableEq

/-- Lookup of a key in a decoded JSON object (Python dict lookup; decoded
dicts have unique keys, so first-match lookup is the dict's lookup). -/
def dictGet : List (String × JsonValue) → String → Option JsonValue
  | [], _ => none
  | (k, v) :: rest, key => if k = key then some v else dictGet rest key

/-- Python `d.get(key, default)` on a dict. -/
def pyGet (fields : List (String × JsonValue)) (key : String) (dflt : JsonValue) : JsonValue :=
  match dictGet fields key with
  | some v => v
  | none => dflt

/-- Python `v.get(key, default)`: only dicts have a `.get` attribute; on any
other value the attribute access raises AttributeError. -/
def jsonGetAttr : JsonValue → String → JsonValue → Except PyErr JsonValue
  | JsonValue.obj fields, key, dflt => Except.ok (pyGet fields key dflt)
  | _, _, _ => Except.error PyErr.attributeError

/-- Python truthiness of a decoded JSON value. -/
def pyTruthy : JsonValue → Bool
  | JsonValue.null => false
  | JsonValue.bool b => b
  | JsonValue.num n => n != 0
  | JsonValue.str s => s != ""
  | JsonValue.arr xs => !xs.isEmpty
  | JsonValue.obj fs => !fs.isEmpty

/-- Whether `needle` occurs at the start of `hay`. -/
def listLeadsWith : List Char → List Char → Bool
  | [], _ => true
  | _ :: _, [] => false
  | a :: as, b :: bs => a == b && listLeadsWith as bs

/-- Whether `needle` occurs contiguously inside `hay`. -/
def listWithin (needle : List Char) : List Char → Bool
  | [] => needle.isEmpty
  | b :: bs => listLeadsWith needle (b :: bs) || listWithin needle bs

/-- Python substring test `needle in hay` for strings. -/
def strWithin (needle hay : String) : Bool :=
  listWithin needle.toList hay.toList

/-- Python `key in value` for a string key: key membership on dicts, element
equality on lists, substring on strings; TypeError on non-containers. -/
def pyContains (value : JsonValue) (key : String) : Except PyErr Bool :=
  match value with
  | JsonValue.obj fields => Except.ok (fields.any (fun p => p.1 == key))
  | JsonValue.arr xs =>
    Except.ok (xs.any (fun v =>
      match v with
      | JsonValue.str s => s == key
      | _ => false))
  | JsonValue.str s => Except.ok (strWithin key s)
  | _ => Except.error PyErr.typeError

/-- Python subscript `value[key]` with a string key. -/
def pySubscriptStr (value : JsonValue) (key : String) : Except PyErr JsonValue :=
  match value with
  | JsonValue.obj fields =>
    match dictGet fields key with
    | some v => Except.ok v
    | none => Except.error PyErr.keyError
  | _ => Except.error PyErr.typeError

/-- Python subscript `value[0]`. -/
def pyIndexZero (value : JsonValue) : Except PyErr JsonValue :=
  match value with
  | JsonValue.arr [] => Except.error PyErr.indexError
  | JsonValue.arr (x :: _) => Except.ok x
  | JsonValue.str s =>
    match s.toList with
    | [] => Except.error PyErr.indexError
    | c :: _ => Except.ok (JsonValue.str c.toString)
  | _ => Except.error PyErr.typeError

/-- The pydantic success model of flight-info.py: `flight_number`, `origin`
and `destination` are required `str` fields, the two times are
`Optional[str] = None`. -/
structure FlightInfoResponse where
  flight_number : String
  origin : String
  destination : String
  departure_time : Option String
  arrival_time : Option String
deriving DecidableEq

/-- The pydantic error model of flight-info.py. -/
structure FlightSearchErrorResponse where
  error : String
deriving DecidableEq

/-- The return type of `search_flight`: `FlightInfoResponse | FlightSearchErrorResponse`. -/
inductive SearchResult where
  | info (r : FlightInfoResponse)
  | err (e : FlightSearchErrorResponse)
deriving DecidableEq

/-- The pydantic request model of flight-info.py. -/
structure FlightSearchRequest where
  flight_number : String

/-- Pydantic validation of a required `str` field: accepts exactly a string
(None or any non-string value raises a ValidationError). -/
def validateStr : JsonValue → Except PyErr String
  | JsonValue.str s => Except.ok s
  | _ => Except.error PyErr.validationError

/-- Pydantic validation of an `Optional[str]` field: accepts a string or None. -/
def validateOptStr : JsonValue → Except PyErr (Option String)
  | JsonValue.null => Except.ok none
  | JsonValue.str s => Except.ok (some s)
  | _ => Except.error PyErr.validationError

/-- An upstream HTTP response as seen by the service: status code, raw body
text, and the outcome of `response.json()` (an exception when the body is
not valid JSON). -/
structure ProviderResponse where
  status_code : Nat
  text : String
  json : Except PyErr JsonValue

def FLIGHTAWARE_BASE_URL : String := "https://aeroapi.flightaware.com/aeroapi/flights/"

/-- Python falsiness of the `os.getenv` result: `not api_key` is true when the
variable is unset or set to the empty string. -/
def apiKeyFalsy : Option String → Bool
  | none => true
  | some s => s == ""

/-- The field extraction and pydantic construction of flight-info.py lines
86-99: each `.get` chain, then `FlightInfoResponse(...)` validation. -/
def extractFlightInfo (flight_info : JsonValue) : Except PyErr SearchResult := do
  let flight_number ← jsonGetAttr flight_info "ident" JsonValue.null
  let originBox ← jsonGetAttr flight_info "origin" (JsonValue.obj [])
  let origin ← jsonGetAttr originBox "code" JsonValue.null
  let destinationBox ← jsonGetAttr flight_info "destination" (JsonValue.obj [])
  let destination ← jsonGetAttr destinationBox "code" JsonValue.null
  let departureBox ← jsonGetAttr flight_info "actual_departure_time" (JsonValue.obj [])
  let departure_time ← jsonGetAttr departureBox "date" JsonValue.null
  let arrivalBox ← jsonGetAttr flight_info "actual_arrival_time" (JsonValue.obj [])
  let arrival_time ← jsonGetAttr arrivalBox "date" JsonValue.null
  let fn ← validateStr flight_number
  let og ← validateStr origin
  let dst ← validateStr destination
  let dep ← validateOptStr departure_time
  let arr ← validateOptStr arrival_time
  Except.ok (SearchResult.info ⟨fn, og, dst, dep, arr⟩)

/-- The condition `('flights' not in data or not data['flights'])` with
Python short-circuit evaluation. -/
def flightsMissing (data : JsonValue) : Except PyErr Bool := do
  let present ← pyContains data "flights"
  if present then do
    let v ← pySubscriptStr data "flights"
    pure (!(pyTruthy v))
  else
    pure true

/-- The body of the `async with` block of `search_flight` once the response
has arrived: status check, JSON decode, flights check, extraction. -/
def handleProviderResponse (response : ProviderResponse) : Except PyErr SearchResult :=
  if response.status_code != 200 then
    Except.ok (SearchResult.err
      ⟨"FlightAware API error: " ++ toString response.status_code ++ " - " ++ response.text⟩)
  else
    match response.json with
    | Except.error e => Except.error e
    | Except.ok data => do
      let missing ← flightsMissing data
      if missing then
        pure (SearchResult.err ⟨"No flight information found"⟩)
      else do
        let flights ← pySubscriptStr data "flights"
        let flight_info ← pyIndexZero flights
        extractFlightInfo flight_info

/-- `search_flight` of flight-info.py. The outbound HTTP GET is abstracted as
`fetch`; the second component of the result is the list of URLs actually
requested, so that "no outbound call" is expressible. -/
def search_flight (api_key : Option String) (request : FlightSearchRequest)
    (fetch : String → ProviderResponse) : Except PyErr SearchResult × List String :=
  if apiKeyFalsy api_key then
    (Except.ok (SearchResult.err ⟨"API key is missing"⟩), [])
  else
    (handleProviderResponse (fetch (FLIGHTAWARE_BASE_URL ++ request.flight_number)),
     [FLIGHTAWARE_BASE_URL ++ request.flight_number])

/-- The single-quote character, used by Python `repr` and error messages. -/
def pyQuote : String := (Char.ofNat 39).toString

mutual

/-- Python `repr` of a decoded JSON value. String escaping inside `repr` of
nested strings is not modelled; no claim renders a container or a string
needing escapes. -/
def pyRepr : JsonValue → String
  | JsonValue.null => "None"
  | JsonValue.bool true => "True"
  | JsonValue.bool false => "False"
  | JsonValue.num n => toString n
  | JsonValue.str s => pyQuote ++ s ++ pyQuote
  | JsonValue.arr xs => "[" ++ pyReprList xs ++ "]"
  | JsonValue.obj fs => "\x7b" ++ pyReprFields fs ++ "\x7d"

def pyReprList : List JsonValue → String
  | [] => ""
  | [v] => pyRepr v
  | v :: rest => pyRepr v ++ ", " ++ pyReprList rest

def pyReprFields : List (String × JsonValue) → String
  | [] => ""
  | [(k, v)] => pyQuote ++ k ++ pyQuote ++ ": " ++ pyRepr v
  | (k, v) :: rest => pyQuote ++ k ++ pyQuote ++ ": " ++ pyRepr v ++ ", " ++ pyReprFields rest

end

/-- Python `str()` of a decoded JSON value, as used by f-string interpolation:
bare text for strings, `repr`-style text otherwise. -/
def pyStr : JsonValue → String
  | JsonValue.str s => s
  | v => pyRepr v

/-- The Python type name of a decoded JSON value, as it appears in TypeError
and AttributeError messages. -/
def pyTypeName : JsonValue → String
  | JsonValue.null => "NoneType"
  | JsonValue.bool _ => "bool"
  | JsonValue.num _ => "int"
  | JsonValue.str _ => "str"
  | JsonValue.arr _ => "list"
  | JsonValue.obj _ => "dict"

/-- Exceptions the Presentation Client's try-block can observe, each carrying
the text `str(e)` would produce. `requestError` is httpx.RequestError;
`statusError` is the httpx.HTTPStatusError raised by `raise_for_status`
(a subclass of Exception but not of RequestError); `jsonError` is a JSON
decode failure of `response.json()`. -/
inductive ClientExc where
  | requestError (d : String)
  | statusError (d : String)
  | jsonError (d : String)
  | typeError (d : String)
  | attrError (d : String)

/-- The description `str(e)` of a client-side exception. -/
def ClientExc.desc : ClientExc → String
  | requestError d => d
  | statusError d => d
  | jsonError d => d
  | typeError d => d
  | attrError d => d

/-- The two `except` clauses of `gradio_search_flight`: RequestError is caught
by the first handler, every other exception by the catch-all. -/
def handleExc : ClientExc → String
  | ClientExc.requestError d => "An error occurred while requesting flight information: " ++ d
  | e => "An unexpected error occurred: " ++ e.desc

/-- The AttributeError message for calling `.get` on a non-dict value. -/
def noGetAttrMsg (tname : String) : String :=
  pyQuote ++ tname ++ pyQuote ++ " object has no attribute " ++ pyQuote ++ "get" ++ pyQuote

/-- One output line of the success block:
`f"Label: \x7bflight_info.get(key, 'N/A')\x7d"`. -/
def renderLine (fields : List (String × JsonValue)) (label key : String) : String :=
  label ++ ": " ++ pyStr (pyGet fields key (JsonValue.str "N/A"))

/-- The body of `gradio_search_flight` from `if "error" in data:` onward,
applied to the decoded response body `data`. -/
def renderData : JsonValue → Except ClientExc String
  | JsonValue.obj fields =>
    if fields.any (fun p => p.1 == "error") then
      Except.ok ("Error: " ++ pyStr (pyGet fields "error" JsonValue.null))
    else
      Except.ok (renderLine fields "Flight Number" "flight_number" ++ "\n" ++
        renderLine fields "Origin" "origin" ++ "\n" ++
        renderLine fields "Destination" "destination" ++ "\n" ++
        renderLine fields "Departure Time" "departure_time" ++ "\n" ++
        renderLine fields "Arrival Time" "arrival_time")
  | JsonValue.arr xs =>
    if xs.any (fun v =>
        match v with
        | JsonValue.str s => s == "error"
        | _ => false) then
      Except.error (ClientExc.typeError "list indices must be integers or slices, not str")
    else
      Except.error (ClientExc.attrError (noGetAttrMsg "list"))
  | JsonValue.str s =>
    if strWithin "error" s then
      Except.error (ClientExc.typeError "string indices must be integers")
    else
      Except.error (ClientExc.attrError (noGetAttrMsg "str"))
  | v =>
    Except.error (ClientExc.typeError
      ("argument of type " ++ pyQuote ++ pyTypeName v ++ pyQuote ++ " is not iterable"))

/-- A response to the client's POST: its status code, the description of the
HTTPStatusError that `raise_for_status` would raise for it, and the outcome
of `response.json()` (a decode-error description on failure). -/
structure ClientResponse where
  status_code : Nat
  statusErrorDesc : String
  body : Except String JsonValue

/-- Outcome of `client.post`: either it raises (typically a RequestError), or
a response arrives. -/
inductive PostResult where
  | exc (e : ClientExc)
  | resp (r : ClientResponse)

def GRADIO_SERVICE_URL : String := "http://127.0.0.1:8000/search_flight"

/-- httpx `response.is_success`, the condition under which `raise_for_status`
does not raise. -/
def is2xx (status : Nat) : Bool := decide (200 ≤ status ∧ status < 300)

/-- The try-block of `gradio_search_flight` after the POST returned, with every
exception routed through the matching `except` clause. -/
def clientHandle (outcome : PostResult) : String :=
  match outcome with
  | PostResult.exc e => handleExc e
  | PostResult.resp r =>
    if !(is2xx r.status_code) then
      handleExc (ClientExc.statusError r.statusErrorDesc)
    else
      match r.body with
      | Except.error d => handleExc (ClientExc.jsonError d)
      | Except.ok data =>
        match renderData data with
        | Except.ok s => s
        | Except.error e => handleExc e

/-- `gradio_search_flight` of flight-search.py. The outbound HTTP POST is
abstracted as `post` (receiving the URL and the JSON payload); the second
component of the result is the list of URLs to which a POST was issued. -/
def gradio_search_flight (flight_number : String)
    (post : String → JsonValue → PostResult) : String × List String :=
  if flight_number == "" then
    ("Please enter a flight number.", [])
  else
    (clientHandle
      (post GRADIO_SERVICE_URL (JsonValue.obj [("flight_number", JsonValue.str flight_number)])),
     [GRADIO_SERVICE_URL])

/-- Helper for an `Option String` field when serializing the success model. -/
def optStrJson : Option String → JsonValue
  | none => JsonValue.null
  | some s => JsonValue.str s

/-- Modelled from the spec: the JSON body a successful lookup presents to the
Presentation Client. The serialization layer between the two processes
(FastMCP/pydantic) is not part of the repository sources; pydantic emits
every declared field of the model, encoding a missing optional value as
JSON null, so a successful LookupResult decodes to an object holding all
five keys. -/
def serializeFlightInfoResponse (r : FlightInfoResponse) : JsonValue :=
  JsonValue.obj
    [("flight_number", JsonValue.str r.flight_number),
     ("origin", JsonValue.str r.origin),
     ("destination", JsonValue.str r.destination),
     ("departure_time", optStrJson r.departure_time),
     ("arrival_time", optStrJson r.arrival_time)]

/-- Extraction of one optional time field from the first flights element:
`flight_info.get(key, \x7b\x7d).get("date")` followed by `Optional[str]`
validation. -/
def timeFieldValue (fields : List (String × JsonValue)) (key : String) :
    Except PyErr (Option String) := do
  let v ← jsonGetAttr (pyGet fields key (JsonValue.obj [])) "date" JsonValue.null
  validateOptStr v

/-! ### Helper lemmas -/

theorem dictGet_some_any {fields : List (String × JsonValue)} {k : String} {v : JsonValue}
    (h : dictGet fields k = some v) : (fields.any fun p => p.1 == k) = true := by
  induction fields with
  | nil => simp [dictGet] at h
  | cons p rest ih =>
    obtain ⟨a, b⟩ := p
    by_cases hak : a = k
    · simp [hak]
    · rw [dictGet, if_neg hak] at h
      simp [List.any_cons, hak, ih h]

theorem dictGet_none_any {fields : List (String × JsonValue)} {k : String}
    (h : dictGet fields k = none) : (fields.any fun p => p.1 == k) = false := by
  induction fields with
  | nil => simp
  | cons p rest ih =>
    obtain ⟨a, b⟩ := p
    by_cases hak : a = k
    · rw [dictGet, if_pos hak] at h
      exact absurd h (by simp)
    · rw [dictGet, if_neg hak] at h
      simp [List.any_cons, hak, ih h]

theorem timeFieldValue_ok_parts {fields : List (String × JsonValue)} {key : String}
    {dep : Option String} (h : timeFieldValue fields key = Except.ok dep) :
    ∃ v, jsonGetAttr (pyGet fields key (JsonValue.obj [])) "date" JsonValue.null = Except.ok v ∧
      validateOptStr v = Except.ok dep := by
  unfold timeFieldValue at h
  cases hj : jsonGetAttr (pyGet fields key (JsonValue.obj [])) "date" JsonValue.null with
  | error e =>
    rw [hj] at h
    simp [Except.instMonad, Except.bind] at h
  | ok v =>
    rw [hj] at h
    simp [Except.instMonad, Except.bind] at h
    exact ⟨v, rfl, h⟩

theorem timeFieldValue_absent {fields : List (String × JsonValue)} {key : String}
    (h : dictGet fields key = none) : timeFieldValue fields key = Except.ok none := by
  simp [timeFieldValue, pyGet, h, jsonGetAttr, validateOptStr, dictGet,
    Except.instMonad, Except.bind]

theorem extractFlightInfo_obj {fields og dst : List (String × JsonValue)} {a b c : String}
    {dep arr : Option String}
    (hident : dictGet fields "ident" = some (JsonValue.str a))
    (horigin : dictGet fields "origin" = some (JsonValue.obj og))
    (hocode : dictGet og "code" = some (JsonValue.str b))
    (hdest : dictGet fields "destination" = some (JsonValue.obj dst))
    (hdcode : dictGet dst "code" = some (JsonValue.str c))
    (hdep : timeFieldValue fields "actual_departure_time" = Except.ok dep)
    (harr : timeFieldValue fields "actual_arrival_time" = Except.ok arr) :
    extractFlightInfo (JsonValue.obj fields) =
      Except.ok (SearchResult.info ⟨a, b, c, dep, arr⟩) := by
  obtain ⟨dv, hdv, hdval⟩ := timeFieldValue_ok_parts hdep
  obtain ⟨av, hav, haval⟩ := timeFieldValue_ok_parts harr
  have j1 : jsonGetAttr (JsonValue.obj fields) "ident" JsonValue.null =
      Except.ok (JsonValue.str a) := by simp [jsonGetAttr, pyGet, hident]
  have j2 : jsonGetAttr (JsonValue.obj fields) "origin" (JsonValue.obj []) =
      Except.ok (JsonValue.obj og) := by simp [jsonGetAttr, pyGet, horigin]
  have j3 : jsonGetAttr (JsonValue.obj og) "code" JsonValue.null =
      Except.ok (JsonValue.str b) := by simp [jsonGetAttr, pyGet, hocode]
  have j4 : jsonGetAttr (JsonValue.obj fields) "destination" (JsonValue.obj []) =
      Except.ok (JsonValue.obj dst) := by simp [jsonGetAttr, pyGet, hdest]
  have j5 : jsonGetAttr (JsonValue.obj dst) "code" JsonValue.null =
      Except.ok (JsonValue.str c) := by simp [jsonGetAttr, pyGet, hdcode]
  have j6 : jsonGetAttr (JsonValue.obj fields) "actual_departure_time" (JsonValue.obj []) =
      Except.ok (pyGet fields "actual_departure_time" (JsonValue.obj [])) := by
    simp [jsonGetAttr]
  have j7 : jsonGetAttr (JsonValue.obj fields) "actual_arrival_time" (JsonValue.obj []) =
      Except.ok (pyGet fields "actual_arrival_time" (JsonValue.obj [])) := by
    simp [jsonGetAttr]
  simp [extractFlightInfo, j1, j2, j3, j4, j5, j6, j7, hdv, hav, hdval, haval,
    validateStr, Except.instMonad, Except.bind]

theorem codeFieldNull {fields : List (String × JsonValue)} {key : String}
    (h : dictGet fields key = none ∨
      ∃ og, dictGet fields key = some (JsonValue.obj og) ∧ dictGet og "code" = none) :
    jsonGetAttr (pyGet fields key (JsonValue.obj [])) "code" JsonValue.null =
      Except.ok JsonValue.null := by
  rcases h with h | ⟨og, h1, h2⟩
  · simp [pyGet, h, jsonGetAttr, dictGet]
  · simp [pyGet, h1, jsonGetAttr, h2]

theorem extractFlightInfo_ident_null {fields og dst : List (String × JsonValue)}
    {b c : String} {dep arr : Option String}
    (hident : dictGet fields "ident" = none)
    (horigin : dictGet fields "origin" = some (JsonValue.obj og))
    (hocode : dictGet og "code" = some (JsonValue.str b))
    (hdest : dictGet fields "destination" = some (JsonValue.obj dst))
    (hdcode : dictGet dst "code" = some (JsonValue.str c))
    (hdep : timeFieldValue fields "actual_departure_time" = Except.ok dep)
    (harr : timeFieldValue fields "actual_arrival_time" = Except.ok arr) :
    extractFlightInfo (JsonValue.obj fields) = Except.error PyErr.validationError := by
  obtain ⟨dv, hdv, hdval⟩ := timeFieldValue_ok_parts hdep
  obtain ⟨av, hav, haval⟩ := timeFieldValue_ok_parts harr
  have j1 : jsonGetAttr (JsonValue.obj fields) "ident" JsonValue.null =
      Except.ok JsonValue.null := by simp [jsonGetAttr, pyGet, hident]
  have j2 : jsonGetAttr (JsonValue.obj fields) "origin" (JsonValue.obj []) =
      Except.ok (JsonValue.obj og) := by simp [jsonGetAttr, pyGet, horigin]
  have j3 : jsonGetAttr (JsonValue.obj og) "code" JsonValue.null =
      Except.ok (JsonValue.str b) := by simp [jsonGetAttr, pyGet, hocode]
  have j4 : jsonGetAttr (JsonValue.obj fields) "destination" (JsonValue.obj []) =
      Except.ok (JsonValue.obj dst) := by simp [jsonGetAttr, pyGet, hdest]
  have j5 : jsonGetAttr (JsonValue.obj dst) "code" JsonValue.null =
      Except.ok (JsonValue.str c) := by simp [jsonGetAttr, pyGet, hdcode]
  have j6 : jsonGetAttr (JsonValue.obj fields) "actual_departure_time" (JsonValue.obj []) =
      Except.ok (pyGet fields "actual_departure_time" (JsonValue.obj [])) := by
    simp [jsonGetAttr]
  have j7 : jsonGetAttr (JsonValue.obj fields) "actual_arrival_time" (JsonValue.obj []) =
      Except.ok (pyGet fields "actual_arrival_time" (JsonValue.obj [])) := by
    simp [jsonGetAttr]
  simp [extractFlightInfo, j1, j2, j3, j4, j5, j6, j7, hdv, hav, hdval, haval,
    validateStr, Except.instMonad, Except.bind]

theorem extractFlightInfo_origin_code_null {fields dst : List (String × JsonValue)}
    {a c : String} {dep arr : Option String}
    (hident : dictGet fields "ident" = some (JsonValue.str a))
    (hocode : jsonGetAttr (pyGet fields "origin" (JsonValue.obj [])) "code" JsonValue.null =
      Except.ok JsonValue.null)
    (hdest : dictGet fields "destination" = some (JsonValue.obj dst))
    (hdcode : dictGet dst "code" = some (JsonValue.str c))
    (hdep : timeFieldValue fields "actual_departure_time" = Except.ok dep)
    (harr : timeFieldValue fields "actual_arrival_time" = Except.ok arr) :
    extractFlightInfo (JsonValue.obj fields) = Except.error PyErr.validationError := by
  obtain ⟨dv, hdv, hdval⟩ := timeFieldValue_ok_parts hdep
  obtain ⟨av, hav, haval⟩ := timeFieldValue_ok_parts harr
  have j1 : jsonGetAttr (JsonValue.obj fields) "ident" JsonValue.null =
      Except.ok (JsonValue.str a) := by simp [jsonGetAttr, pyGet, hident]
  have j2 : jsonGetAttr (JsonValue.obj fields) "origin" (JsonValue.obj []) =
      Except.ok (pyGet fields "origin" (JsonValue.obj [])) := by simp [jsonGetAttr]
  have j4 : jsonGetAttr (JsonValue.obj fields) "destination" (JsonValue.obj []) =
      Except.ok (JsonValue.obj dst) := by simp [jsonGetAttr, pyGet, hdest]
  have j5 : jsonGetAttr (JsonValue.obj dst) "code" JsonValue.null =
      Except.ok (JsonValue.str c) := by simp [jsonGetAttr, pyGet, hdcode]
  have j6 : jsonGetAttr (JsonValue.obj fields) "actual_departure_time" (JsonValue.obj []) =
      Except.ok (pyGet fields "actual_departure_time" (JsonValue.obj [])) := by
    simp [jsonGetAttr]
  have j7 : jsonGetAttr (JsonValue.obj fields) "actual_arrival_time" (JsonValue.obj []) =
      Except.ok (pyGet fields "actual_arrival_time" (JsonValue.obj [])) := by
    simp [jsonGetAttr]
  simp [extractFlightInfo, j1, j2, hocode, j4, j5, j6, j7, hdv, hav, hdval, haval,
    validateStr, Except.instMonad, Except.bind]

theorem extractFlightInfo_destination_code_null {fields og : List (String × JsonValue)}
    {a b : String} {dep arr : Option String}
    (hident : dictGet fields "ident" = some (JsonValue.str a))
    (horigin : dictGet fields "origin" = some (JsonValue.obj og))
    (hocode : dictGet og "code" = some (JsonValue.str b))
    (hdcode : jsonGetAttr (pyGet fields "destination" (JsonValue.obj [])) "code"
      JsonValue.null = Except.ok JsonValue.null)
    (hdep : timeFieldValue fields "actual_departure_time" = Except.ok dep)
    (harr : timeFieldValue fields "actual_arrival_time" = Except.ok arr) :
    extractFlightInfo (JsonValue.obj fields) = Except.error PyErr.validationError := by
  obtain ⟨dv, hdv, hdval⟩ := timeFieldValue_ok_parts hdep
  obtain ⟨av, hav, haval⟩ := timeFieldValue_ok_parts harr
  have j1 : jsonGetAttr (JsonValue.obj fields) "ident" JsonValue.null =
      Except.ok (JsonValue.str a) := by simp [jsonGetAttr, pyGet, hident]
  have j2 : jsonGetAttr (JsonValue.obj fields) "origin" (JsonValue.obj []) =
      Except.ok (JsonValue.obj og) := by simp [jsonGetAttr, pyGet, horigin]
  have j3 : jsonGetAttr (JsonValue.obj og) "code" JsonValue.null =
      Except.ok (JsonValue.str b) := by simp [jsonGetAttr, pyGet, hocode]
  have j4 : jsonGetAttr (JsonValue.obj fields) "destination" (JsonValue.obj []) =
      Except.ok (pyGet fields "destination" (JsonValue.obj [])) := by simp [jsonGetAttr]
  have j6 : jsonGetAttr (JsonValue.obj fields) "actual_departure_time" (JsonValue.obj []) =
      Except.ok (pyGet fields "actual_departure_time" (JsonValue.obj [])) := by
    simp [jsonGetAttr]
  have j7 : jsonGetAttr (JsonValue.obj fields) "actual_arrival_time" (JsonValue.obj []) =
      Except.ok (pyGet fields "actual_arrival_time" (JsonValue.obj [])) := by
    simp [jsonGetAttr]
  simp [extractFlightInfo, j1, j2, j3, j4, hdcode, j6, j7, hdv, hav, hdval, haval,
    validateStr, Except.instMonad, Except.bind]

theorem handleProviderResponse_extract {resp : ProviderResponse}
    {dataFields : List (String × JsonValue)} {fi : JsonValue} {rest : List JsonValue}
    (hstatus : resp.status_code = 200)
    (hjson : resp.json = Except.ok (JsonValue.obj dataFields))
    (hflights : dictGet dataFields "flights" = some (JsonValue.arr (fi :: rest))) :
    handleProviderResponse resp = extractFlightInfo fi := by
  have hin : (dataFields.any fun p => p.1 == "flights") = true := dictGet_some_any hflights
  simp [handleProviderResponse, hstatus, hjson, flightsMissing, pyContains, hin,
    pySubscriptStr, hflights, pyTruthy, pyIndexZero, Except.instMonad, Except.bind, Except.pure]

theorem handleProviderResponse_noflights {resp : ProviderResponse}
    {dataFields : List (String × JsonValue)}
    (hstatus : resp.status_code = 200)
    (hjson : resp.json = Except.ok (JsonValue.obj dataFields))
    (hflights : dictGet dataFields "flights" = none ∨
      dictGet dataFields "flights" = some (JsonValue.arr [])) :
    handleProviderResponse resp =
      Except.ok (SearchResult.err ⟨"No flight information found"⟩) := by
  cases hflights with
  | inl h =>
    have hin := dictGet_none_any h
    simp [handleProviderResponse, hstatus, hjson, flightsMissing, pyContains, hin,
      Except.instMonad, Except.bind, Except.pure]
  | inr h =>
    have hin := dictGet_some_any h
    simp [handleProviderResponse, hstatus, hjson, flightsMissing, pyContains, hin,
      pySubscriptStr, h, pyTruthy, Except.instMonad, Except.bind, Except.pure]

theorem search_flight_keyed {api_key : Option String} {req : FlightSearchRequest}
    {fetch : String → ProviderResponse} (hkey : apiKeyFalsy api_key = false) :
    search_flight api_key req fetch =
      (handleProviderResponse (fetch (FLIGHTAWARE_BASE_URL ++ req.flight_number)),
       [FLIGHTAWARE_BASE_URL ++ req.flight_number]) := by
  simp [search_flight, hkey]

/-! ### Claim theorems -/

/-- Claim C5: with no provider API key configured in the environment,
`search_flight` returns the error variant with message exactly
"API key is missing", raises no exception, and issues no outbound HTTP
request, for every flight identifier. -/
theorem C5_missing_api_key (req : FlightSearchRequest) (fetch : String → ProviderResponse) :
    search_flight none req fetch =
      (Except.ok (SearchResult.err ⟨"API key is missing"⟩), []) := rfl

/-- Claim C9: a credential configured as the empty string is treated exactly
like an absent credential, because `if not api_key` tests falsiness:
`search_flight` returns the "API key is missing" error variant and issues
no outbound call. -/
theorem C9_empty_api_key (req : FlightSearchRequest) (fetch : String → ProviderResponse) :
    search_flight (some "") req fetch =
      (Except.ok (SearchResult.err ⟨"API key is missing"⟩), []) := by
  simp [search_flight, apiKeyFalsy]

/-- Claim C7: for the empty flight identifier, the Presentation Client returns
exactly "Please enter a flight number." and issues no network call. -/
theorem C7_empty_input (post : String → JsonValue → PostResult) :
    gradio_search_flight "" post = ("Please enter a flight number.", []) := rfl

/-- Claim C10: the field extraction is only safe when nested keys are absent
or bound to objects: on a status-200 response whose first flights element
binds `origin` to JSON null, `search_flight` raises an AttributeError
(attribute access on None) instead of producing either result variant. -/
theorem C10_null_nested_key :
    search_flight (some "KEY") ⟨"UAL123"⟩
      (fun _ => ⟨200, "", Except.ok (JsonValue.obj [("flights", JsonValue.arr
        [JsonValue.obj [("ident", JsonValue.str "UAL123"),
          ("origin", JsonValue.null)]])])⟩)
    = (Except.error PyErr.attributeError, [FLIGHTAWARE_BASE_URL ++ "UAL123"]) := rfl

/-- Claim C1 (counterexample): a status-200 response whose single flights
element is the empty object makes `search_flight` raise a pydantic
ValidationError (the required `str` fields receive None) instead of
returning the success variant with null fields, refuting the claim that a
missing `ident`, `origin.code` or `destination.code` never turns into a
failure or an exception. -/
theorem C1_counterexample :
    search_flight (some "KEY") ⟨"UAL123"⟩
      (fun _ => ⟨200, "", Except.ok (JsonValue.obj
        [("flights", JsonValue.arr [JsonValue.obj []])])⟩)
    = (Except.error PyErr.validationError, [FLIGHTAWARE_BASE_URL ++ "UAL123"]) := rfl

/-- Claim C1 (amended): on a status-200 response with a non-empty `flights`
list whose first element is an object, each nested key individually
behaves as follows when missing: a missing `actual_departure_time` (or
`actual_arrival_time`) key yields the success variant with a null value
for that one field, the other time field unchanged; but a missing
`ident`, a missing `origin.code` (the `origin` key absent, or present as
an object without `code`), or a missing `destination.code` gives the
corresponding required `str` field of `FlightInfoResponse` the value
None, and pydantic validation raises a ValidationError instead of
producing either result variant. -/
theorem C1_missing_keys_amended (api_key : Option String) (req : FlightSearchRequest)
    (hkey : apiKeyFalsy api_key = false) :
    (∀ (fetch : String → ProviderResponse)
       (dataFields fields og dst : List (String × JsonValue)) (rest : List JsonValue)
       (a b c : String) (arr : Option String),
      (fetch (FLIGHTAWARE_BASE_URL ++ req.flight_number)).status_code = 200 →
      (fetch (FLIGHTAWARE_BASE_URL ++ req.flight_number)).json =
        Except.ok (JsonValue.obj dataFields) →
      dictGet dataFields "flights" = some (JsonValue.arr (JsonValue.obj fields :: rest)) →
      dictGet fields "ident" = some (JsonValue.str a) →
      dictGet fields "origin" = some (JsonValue.obj og) →
      dictGet og "code" = some (JsonValue.str b) →
      dictGet fields "destination" = some (JsonValue.obj dst) →
      dictGet dst "code" = some (JsonValue.str c) →
      dictGet fields "actual_departure_time" = none →
      timeFieldValue fields "actual_arrival_time" = Except.ok arr →
      search_flight api_key req fetch =
        (Except.ok (SearchResult.info ⟨a, b, c, none, arr⟩),
         [FLIGHTAWARE_BASE_URL ++ req.flight_number]))
    ∧ (∀ (fetch : String → ProviderResponse)
       (dataFields fields og dst : List (String × JsonValue)) (rest : List JsonValue)
       (a b c : String) (dep : Option String),
      (fetch (FLIGHTAWARE_BASE_URL ++ req.flight_number)).status_code = 200 →
      (fetch (FLIGHTAWARE_BASE_URL ++ req.flight_number)).json =
        Except.ok (JsonValue.obj dataFields) →
      dictGet dataFields "flights" = some (JsonValue.arr (JsonValue.obj fields :: rest)) →
      dictGet fields "ident" = some (JsonValue.str a) →
      dictGet fields "origin" = some (JsonValue.obj og) →
      dictGet og "code" = some (JsonValue.str b) →
      dictGet fields "destination" = some (JsonValue.obj dst) →
      dictGet dst "code" = some (JsonValue.str c) →
      timeFieldValue fields "actual_departure_time" = Except.ok dep →
      dictGet fields "actual_arrival_time" = none →
      search_flight api_key req fetch =
        (Except.ok (SearchResult.info ⟨a, b, c, dep, none⟩),
         [FLIGHTAWARE_BASE_URL ++ req.flight_number]))
    ∧ (∀ (fetch : String → ProviderResponse)
       (dataFields fields og dst : List (String × JsonValue)) (rest : List JsonValue)
       (b c : String) (dep arr : Option String),
      (fetch (FLIGHTAWARE_BASE_URL ++ req.flight_number)).status_code = 200 →
      (fetch (FLIGHTAWARE_BASE_URL ++ req.flight_number)).json =
        Except.ok (JsonValue.obj dataFields) →
      dictGet dataFields "flights" = some (JsonValue.arr (JsonValue.obj fields :: rest)) →
      dictGet fields "ident" = none →
      dictGet fields "origin" = some (JsonValue.obj og) →
      dictGet og "code" = some (JsonValue.str b) →
      dictGet fields "destination" = some (JsonValue.obj dst) →
      dictGet dst "code" = some (JsonValue.str c) →
      timeFieldValue fields "actual_departure_time" = Except.ok dep →
      timeFieldValue fields "actual_arrival_time" = Except.ok arr →
      search_flight api_key req fetch =
        (Except.error PyErr.validationError,
         [FLIGHTAWARE_BASE_URL ++ req.flight_number]))
    ∧ (∀ (fetch : String → ProviderResponse)
       (dataFields fields dst : List (String × JsonValue)) (rest : List JsonValue)
       (a c : String) (dep arr : Option String),
      (fetch (FLIGHTAWARE_BASE_URL ++ req.flight_number)).status_code = 200 →
      (fetch (FLIGHTAWARE_BASE_URL ++ req.flight_number)).json =
        Except.ok (JsonValue.obj dataFields) →
      dictGet dataFields "flights" = some (JsonValue.arr (JsonValue.obj fields :: rest)) →
      dictGet fields "ident" = some (JsonValue.str a) →
      (dictGet fields "origin" = none ∨
        ∃ og, dictGet fields "origin" = some (JsonValue.obj og) ∧
          dictGet og "code" = none) →
      dictGet fields "destination" = some (JsonValue.obj dst) →
      dictGet dst "code" = some (JsonValue.str c) →
      timeFieldValue fields "actual_departure_time" = Except.ok dep →
      timeFieldValue fields "actual_arrival_time" = Except.ok arr →
      search_flight api_key req fetch =
        (Except.error PyErr.validationError,
         [FLIGHTAWARE_BASE_URL ++ req.flight_number]))
    ∧ (∀ (fetch : String → ProviderResponse)
       (dataFields fields og : List (String × JsonValue)) (rest : List JsonValue)
       (a b : String) (dep arr : Option String),
      (fetch (FLIGHTAWARE_BASE_URL ++ req.flight_number)).status_code = 200 →
      (fetch (FLIGHTAWARE_BASE_URL ++ req.flight_number)).json =
        Except.ok (JsonValue.obj dataFields) →
      dictGet dataFields "flights" = some (JsonValue.arr (JsonValue.obj fields :: rest)) →
      dictGet fields "ident" = some (JsonValue.str a) →
      dictGet fields "origin" = some (JsonValue.obj og) →
      dictGet og "code" = some (JsonValue.str b) →
      (dictGet fields "destination" = none ∨
        ∃ dd, dictGet fields "destination" = some (JsonValue.obj dd) ∧
          dictGet dd "code" = none) →
      timeFieldValue fields "actual_departure_time" = Except.ok dep →
      timeFieldValue fields "actual_arrival_time" = Except.ok arr →
      search_flight api_key req fetch =
        (Except.error PyErr.validationError,
         [FLIGHTAWARE_BASE_URL ++ req.flight_number])) := by
  refine ⟨?_, ?_, ?_, ?_, ?_⟩
  · intro fetch dataFields fields og dst rest a b c arr h200 hjson hflights hident horigin
      hocode hdest hdcode hdepn harr
    rw [search_flight_keyed hkey, handleProviderResponse_extract h200 hjson hflights,
      extractFlightInfo_obj hident horigin hocode hdest hdcode
        (timeFieldValue_absent hdepn) harr]
  · intro fetch dataFields fields og dst rest a b c dep h200 hjson hflights hident horigin
      hocode hdest hdcode hdep harrn
    rw [search_flight_keyed hkey, handleProviderResponse_extract h200 hjson hflights,
      extractFlightInfo_obj hident horigin hocode hdest hdcode hdep
        (timeFieldValue_absent harrn)]
  · intro fetch dataFields fields og dst rest b c dep arr h200 hjson hflights hident horigin
      hocode hdest hdcode hdep harr
    rw [search_flight_keyed hkey, handleProviderResponse_extract h200 hjson hflights,
      extractFlightInfo_ident_null hident horigin hocode hdest hdcode hdep harr]
  · intro fetch dataFields fields dst rest a c dep arr h200 hjson hflights hident hmiss
      hdest hdcode hdep harr
    rw [search_flight_keyed hkey, handleProviderResponse_extract h200 hjson hflights,
      extractFlightInfo_origin_code_null hident (codeFieldNull hmiss) hdest hdcode hdep harr]
  · intro fetch dataFields fields og rest a b dep arr h200 hjson hflights hident horigin
      hocode hmiss hdep harr
    rw [search_flight_keyed hkey, handleProviderResponse_extract h200 hjson hflights,
      extractFlightInfo_destination_code_null hident horigin hocode
        (codeFieldNull hmiss) hdep harr]

/-- Witness for C1 (amended): five concrete per-key instances. A first
element missing exactly the departure key yields a success with a null
departure time and the arrival time kept; missing exactly the arrival
key yields the symmetric success; missing exactly `ident`, exactly the
`origin` key, or holding a `destination` object without `code` each
yields the ValidationError exception. -/
theorem C1_missing_keys_amended_witness :
    search_flight (some "KEY") ⟨"UAL123"⟩
      (fun _ => ⟨200, "", Except.ok (JsonValue.obj [("flights", JsonValue.arr
        [JsonValue.obj [("ident", JsonValue.str "UAL123"),
          ("origin", JsonValue.obj [("code", JsonValue.str "SFO")]),
          ("destination", JsonValue.obj [("code", JsonValue.str "ORD")]),
          ("actual_arrival_time", JsonValue.obj
            [("date", JsonValue.str "2024-01-02T11:00Z")])]])])⟩)
      = (Except.ok (SearchResult.info
          ⟨"UAL123", "SFO", "ORD", none, some "2024-01-02T11:00Z"⟩),
         [FLIGHTAWARE_BASE_URL ++ "UAL123"])
    ∧ search_flight (some "KEY") ⟨"UAL123"⟩
      (fun _ => ⟨200, "", Except.ok (JsonValue.obj [("flights", JsonValue.arr
        [JsonValue.obj [("ident", JsonValue.str "UAL123"),
          ("origin", JsonValue.obj [("code", JsonValue.str "SFO")]),
          ("destination", JsonValue.obj [("code", JsonValue.str "ORD")]),
          ("actual_departure_time", JsonValue.obj
            [("date", JsonValue.str "2024-01-01T10:00Z")])]])])⟩)
      = (Except.ok (SearchResult.info
          ⟨"UAL123", "SFO", "ORD", some "2024-01-01T10:00Z", none⟩),
         [FLIGHTAWARE_BASE_URL ++ "UAL123"])
    ∧ search_flight (some "KEY") ⟨"UAL123"⟩
      (fun _ => ⟨200, "", Except.ok (JsonValue.obj [("flights", JsonValue.arr
        [JsonValue.obj [("origin", JsonValue.obj [("code", JsonValue.str "SFO")]),
          ("destination", JsonValue.obj [("code", JsonValue.str "ORD")])]])])⟩)
      = (Except.error PyErr.validationError, [FLIGHTAWARE_BASE_URL ++ "UAL123"])
    ∧ search_flight (some "KEY") ⟨"UAL123"⟩
      (fun _ => ⟨200, "", Except.ok (JsonValue.obj [("flights", JsonValue.arr
        [JsonValue.obj [("ident", JsonValue.str "UAL123"),
          ("destination", JsonValue.obj [("code", JsonValue.str "ORD")])]])])⟩)
      = (Except.error PyErr.validationError, [FLIGHTAWARE_BASE_URL ++ "UAL123"])
    ∧ search_flight (some "KEY") ⟨"UAL123"⟩
      (fun _ => ⟨200, "", Except.ok (JsonValue.obj [("flights", JsonValue.arr
        [JsonValue.obj [("ident", JsonValue.str "UAL123"),
          ("origin", JsonValue.obj [("code", JsonValue.str "SFO")]),
          ("destination", JsonValue.obj [])]])])⟩)
      = (Except.error PyErr.validationError, [FLIGHTAWARE_BASE_URL ++ "UAL123"]) :=
  ⟨(C1_missing_keys_amended (some "KEY") ⟨"UAL123"⟩ rfl).1 _
      [("flights", JsonValue.arr
        [JsonValue.obj [("ident", JsonValue.str "UAL123"),
          ("origin", JsonValue.obj [("code", JsonValue.str "SFO")]),
          ("destination", JsonValue.obj [("code", JsonValue.str "ORD")]),
          ("actual_arrival_time", JsonValue.obj
            [("date", JsonValue.str "2024-01-02T11:00Z")])]])]
      [("ident", JsonValue.str "UAL123"),
        ("origin", JsonValue.obj [("code", JsonValue.str "SFO")]),
        ("destination", JsonValue.obj [("code", JsonValue.str "ORD")]),
        ("actual_arrival_time", JsonValue.obj
          [("date", JsonValue.str "2024-01-02T11:00Z")])]
      [("code", JsonValue.str "SFO")] [("code", JsonValue.str "ORD")] []
      "UAL123" "SFO" "ORD" (some "2024-01-02T11:00Z")
      rfl rfl rfl rfl rfl rfl rfl rfl rfl rfl,
   (C1_missing_keys_amended (some "KEY") ⟨"UAL123"⟩ rfl).2.1 _
      [("flights", JsonValue.arr
        [JsonValue.obj [("ident", JsonValue.str "UAL123"),
          ("origin", JsonValue.obj [("code", JsonValue.str "SFO")]),
          ("destination", JsonValue.obj [("code", JsonValue.str "ORD")]),
          ("actual_departure_time", JsonValue.obj
            [("date", JsonValue.str "2024-01-01T10:00Z")])]])]
      [("ident", JsonValue.str "UAL123"),
        ("origin", JsonValue.obj [("code", JsonValue.str "SFO")]),
        ("destination", JsonValue.obj [("code", JsonValue.str "ORD")]),
        ("actual_departure_time", JsonValue.obj
          [("date", JsonValue.str "2024-01-01T10:00Z")])]
      [("code", JsonValue.str "SFO")] [("code", JsonValue.str "ORD")] []
      "UAL123" "SFO" "ORD" (some "2024-01-01T10:00Z")
      rfl rfl rfl rfl rfl rfl rfl rfl rfl rfl,
   (C1_missing_keys_amended (some "KEY") ⟨"UAL123"⟩ rfl).2.2.1 _
      [("flights", JsonValue.arr
        [JsonValue.obj [("origin", JsonValue.obj [("code", JsonValue.str "SFO")]),
          ("destination", JsonValue.obj [("code", JsonValue.str "ORD")])]])]
      [("origin", JsonValue.obj [("code", JsonValue.str "SFO")]),
        ("destination", JsonValue.obj [("code", JsonValue.str "ORD")])]
      [("code", JsonValue.str "SFO")] [("code", JsonValue.str "ORD")] []
      "SFO" "ORD" none none
      rfl rfl rfl rfl rfl rfl rfl rfl rfl rfl,
   (C1_missing_keys_amended (some "KEY") ⟨"UAL123"⟩ rfl).2.2.2.1 _
      [("flights", JsonValue.arr
        [JsonValue.obj [("ident", JsonValue.str "UAL123"),
          ("destination", JsonValue.obj [("code", JsonValue.str "ORD")])]])]
      [("ident", JsonValue.str "UAL123"),
        ("destination", JsonValue.obj [("code", JsonValue.str "ORD")])]
      [("code", JsonValue.str "ORD")] []
      "UAL123" "ORD" none none
      rfl rfl rfl rfl (Or.inl rfl) rfl rfl rfl rfl,
   (C1_missing_keys_amended (some "KEY") ⟨"UAL123"⟩ rfl).2.2.2.2 _
      [("flights", JsonValue.arr
        [JsonValue.obj [("ident", JsonValue.str "UAL123"),
          ("origin", JsonValue.obj [("code", JsonValue.str "SFO")]),
          ("destination", JsonValue.obj [])]])]
      [("ident", JsonValue.str "UAL123"),
        ("origin", JsonValue.obj [("code", JsonValue.str "SFO")]),
        ("destination", JsonValue.obj [])]
      [("code", JsonValue.str "SFO")] []
      "UAL123" "SFO" none none
      rfl rfl rfl rfl rfl rfl (Or.inr ⟨[], rfl, rfl⟩) rfl rfl⟩

/-- Claim C2: on a status-200 response with a non-empty `flights` list whose
first element is an object from which `ident`, `origin.code`,
`destination.code` extract as strings and the two `.date` time fields
validate, `search_flight` returns the success variant holding exactly
those extracted values; the elements after the first (`rest`) never
influence the result. -/
theorem C2_first_element_mapping (api_key : Option String) (req : FlightSearchRequest)
    (fetch : String → ProviderResponse)
    (dataFields fields og dst : List (String × JsonValue)) (rest : List JsonValue)
    (a b c : String) (dep arr : Option String)
    (hkey : apiKeyFalsy api_key = false)
    (hstatus : (fetch (FLIGHTAWARE_BASE_URL ++ req.flight_number)).status_code = 200)
    (hjson : (fetch (FLIGHTAWARE_BASE_URL ++ req.flight_number)).json =
      Except.ok (JsonValue.obj dataFields))
    (hflights : dictGet dataFields "flights" =
      some (JsonValue.arr (JsonValue.obj fields :: rest)))
    (hident : dictGet fields "ident" = some (JsonValue.str a))
    (horigin : dictGet fields "origin" = some (JsonValue.obj og))
    (hocode : dictGet og "code" = some (JsonValue.str b))
    (hdest : dictGet fields "destination" = some (JsonValue.obj dst))
    (hdcode : dictGet dst "code" = some (JsonValue.str c))
    (hdep : timeFieldValue fields "actual_departure_time" = Except.ok dep)
    (harr : timeFieldValue fields "actual_arrival_time" = Except.ok arr) :
    search_flight api_key req fetch =
      (Except.ok (SearchResult.info ⟨a, b, c, dep, arr⟩),
       [FLIGHTAWARE_BASE_URL ++ req.flight_number]) := by
  rw [search_flight_keyed hkey, handleProviderResponse_extract hstatus hjson hflights,
    extractFlightInfo_obj hident horigin hocode hdest hdcode hdep harr]

/-- Witness for C2: the spec's example response for identifier "UAL123"
(with `actual_arrival_time` the empty object) maps to the success variant
with a null arrival time. -/
theorem C2_first_element_mapping_witness :
    search_flight (some "KEY") ⟨"UAL123"⟩
      (fun _ => ⟨200, "", Except.ok (JsonValue.obj [("flights", JsonValue.arr
        [JsonValue.obj [("ident", JsonValue.str "UAL123"),
          ("origin", JsonValue.obj [("code", JsonValue.str "SFO")]),
          ("destination", JsonValue.obj [("code", JsonValue.str "ORD")]),
          ("actual_departure_time", JsonValue.obj [("date", JsonValue.str "2024-01-01T10:00Z")]),
          ("actual_arrival_time", JsonValue.obj [])]])])⟩)
    = (Except.ok (SearchResult.info
        ⟨"UAL123", "SFO", "ORD", some "2024-01-01T10:00Z", none⟩),
       [FLIGHTAWARE_BASE_URL ++ "UAL123"]) :=
  C2_first_element_mapping (some "KEY") ⟨"UAL123"⟩ _
    [("flights", JsonValue.arr
      [JsonValue.obj [("ident", JsonValue.str "UAL123"),
        ("origin", JsonValue.obj [("code", JsonValue.str "SFO")]),
        ("destination", JsonValue.obj [("code", JsonValue.str "ORD")]),
        ("actual_departure_time", JsonValue.obj [("date", JsonValue.str "2024-01-01T10:00Z")]),
        ("actual_arrival_time", JsonValue.obj [])]])]
    [("ident", JsonValue.str "UAL123"),
      ("origin", JsonValue.obj [("code", JsonValue.str "SFO")]),
      ("destination", JsonValue.obj [("code", JsonValue.str "ORD")]),
      ("actual_departure_time", JsonValue.obj [("date", JsonValue.str "2024-01-01T10:00Z")]),
      ("actual_arrival_time", JsonValue.obj [])]
    [("code", JsonValue.str "SFO")] [("code", JsonValue.str "ORD")] []
    "UAL123" "SFO" "ORD" (some "2024-01-01T10:00Z") none
    rfl rfl rfl rfl rfl rfl rfl rfl rfl rfl rfl

/-- Claim C4: on a status-200 response whose parsed body either lacks the
`flights` key or binds it to the empty list, `search_flight` returns the
error variant with message exactly "No flight information found". -/
theorem C4_no_flights (api_key : Option String) (req : FlightSearchRequest)
    (fetch : String → ProviderResponse) (dataFields : List (String × JsonValue))
    (hkey : apiKeyFalsy api_key = false)
    (hstatus : (fetch (FLIGHTAWARE_BASE_URL ++ req.flight_number)).status_code = 200)
    (hjson : (fetch (FLIGHTAWARE_BASE_URL ++ req.flight_number)).json =
      Except.ok (JsonValue.obj dataFields))
    (hflights : dictGet dataFields "flights" = none ∨
      dictGet dataFields "flights" = some (JsonValue.arr [])) :
    search_flight api_key req fetch =
      (Except.ok (SearchResult.err ⟨"No flight information found"⟩),
       [FLIGHTAWARE_BASE_URL ++ req.flight_number]) := by
  rw [search_flight_keyed hkey, handleProviderResponse_noflights hstatus hjson hflights]

/-- Witness for C4: a status-200 response whose body is the empty object. -/
theorem C4_no_flights_witness :
    search_flight (some "KEY") ⟨"UAL123"⟩
      (fun _ => ⟨200, "", Except.ok (JsonValue.obj [])⟩)
    = (Except.ok (SearchResult.err ⟨"No flight information found"⟩),
       [FLIGHTAWARE_BASE_URL ++ "UAL123"]) :=
  C4_no_flights (some "KEY") ⟨"UAL123"⟩ _ [] rfl rfl rfl (Or.inl rfl)

/-- Claim C6: on any response with a status code other than 200,
`search_flight` returns the error variant, and its message contains both
the status code and the raw response body text. -/
theorem C6_non_200 (api_key : Option String) (req : FlightSearchRequest)
    (fetch : String → ProviderResponse)
    (hkey : apiKeyFalsy api_key = false)
    (hstatus : (fetch (FLIGHTAWARE_BASE_URL ++ req.flight_number)).status_code ≠ 200) :
    search_flight api_key req fetch =
      (Except.ok (SearchResult.err
        ⟨"FlightAware API error: " ++
          toString (fetch (FLIGHTAWARE_BASE_URL ++ req.flight_number)).status_code ++
          " - " ++ (fetch (FLIGHTAWARE_BASE_URL ++ req.flight_number)).text⟩),
       [FLIGHTAWARE_BASE_URL ++ req.flight_number])
    ∧ (∃ l r, "FlightAware API error: " ++
          toString (fetch (FLIGHTAWARE_BASE_URL ++ req.flight_number)).status_code ++
          " - " ++ (fetch (FLIGHTAWARE_BASE_URL ++ req.flight_number)).text =
        l ++ toString (fetch (FLIGHTAWARE_BASE_URL ++ req.flight_number)).status_code ++ r)
    ∧ (∃ l r, "FlightAware API error: " ++
          toString (fetch (FLIGHTAWARE_BASE_URL ++ req.flight_number)).status_code ++
          " - " ++ (fetch (FLIGHTAWARE_BASE_URL ++ req.flight_number)).text =
        l ++ (fetch (FLIGHTAWARE_BASE_URL ++ req.flight_number)).text ++ r) := by
  refine ⟨?_, ⟨"FlightAware API error: ",
      " - " ++ (fetch (FLIGHTAWARE_BASE_URL ++ req.flight_number)).text, ?_⟩,
    ⟨"FlightAware API error: " ++
      toString (fetch (FLIGHTAWARE_BASE_URL ++ req.flight_number)).status_code ++ " - ",
      "", ?_⟩⟩
  · rw [search_flight_keyed hkey]
    have hb : ((fetch (FLIGHTAWARE_BASE_URL ++ req.flight_number)).status_code != 200) =
        true := by simp [hstatus]
    simp [handleProviderResponse, hb]
  · rw [String.append_assoc, String.append_assoc]
  · rw [String.append_empty, String.append_assoc]

/-- Witness for C6: a 404 response with body "notfound". -/
theorem C6_non_200_witness :
    search_flight (some "KEY") ⟨"UAL123"⟩
      (fun _ => ⟨404, "notfound", Except.error PyErr.jsonDecodeError⟩)
    = (Except.ok (SearchResult.err ⟨"FlightAware API error: 404 - notfound"⟩),
       [FLIGHTAWARE_BASE_URL ++ "UAL123"]) :=
  (C6_non_200 (some "KEY") ⟨"UAL123"⟩
    (fun _ => ⟨404, "notfound", Except.error PyErr.jsonDecodeError⟩)
    rfl (by decide)).1

/-- Claim C3 (counterexample): a successful lookup result with a null
`arrival_time`, once serialized and decoded, renders with the line
"Arrival Time: None" — not "Arrival Time: N/A" — because
`.get(key, "N/A")` only substitutes the default when the key is absent,
and a null field is present with value None. -/
theorem C3_counterexample :
    (gradio_search_flight "UAL123"
      (fun _ _ => PostResult.resp ⟨200, "sdesc",
        Except.ok (serializeFlightInfoResponse
          ⟨"UAL123", "SFO", "ORD", some "2024-01-01T10:00Z", none⟩)⟩)).fst
      = "Flight Number: UAL123\nOrigin: SFO\nDestination: ORD\nDeparture Time: 2024-01-01T10:00Z\nArrival Time: None"
    ∧ "Flight Number: UAL123\nOrigin: SFO\nDestination: ORD\nDeparture Time: 2024-01-01T10:00Z\nArrival Time: None"
      ≠ "Flight Number: UAL123\nOrigin: SFO\nDestination: ORD\nDeparture Time: 2024-01-01T10:00Z\nArrival Time: N/A" :=
  ⟨rfl, by decide⟩

/-- Claim C3 (amended): for a success body (a decoded object with no `error`
key) the render operation produces exactly the five-line block whose
value for each field is the Python string of the body's value for that
key, substituting "N/A" exactly when the key is absent from the body; a
key present with a string renders that string, and a key present with
null renders "None", not "N/A". -/
theorem C3_render_amended (fn : String) (post : String → JsonValue → PostResult)
    (r : ClientResponse) (fields : List (String × JsonValue))
    (hfn : fn ≠ "")
    (hpost : post GRADIO_SERVICE_URL
      (JsonValue.obj [("flight_number", JsonValue.str fn)]) = PostResult.resp r)
    (hstatus : is2xx r.status_code = true)
    (hbody : r.body = Except.ok (JsonValue.obj fields))
    (hnoerr : dictGet fields "error" = none) :
    (gradio_search_flight fn post).fst =
      renderLine fields "Flight Number" "flight_number" ++ "\n" ++
      renderLine fields "Origin" "origin" ++ "\n" ++
      renderLine fields "Destination" "destination" ++ "\n" ++
      renderLine fields "Departure Time" "departure_time" ++ "\n" ++
      renderLine fields "Arrival Time" "arrival_time"
    ∧ (∀ key label, dictGet fields key = none →
        renderLine fields label key = label ++ ": " ++ "N/A")
    ∧ (∀ key label s, dictGet fields key = some (JsonValue.str s) →
        renderLine fields label key = label ++ ": " ++ s)
    ∧ (∀ key label, dictGet fields key = some JsonValue.null →
        renderLine fields label key = label ++ ": " ++ "None") := by
  have hne : (fn == "") = false := by simp [hfn]
  have herr : (fields.any fun p => p.1 == "error") = false := dictGet_none_any hnoerr
  refine ⟨?_, ?_, ?_, ?_⟩
  · simp [gradio_search_flight, hne, clientHandle, hpost, hstatus, hbody, renderData, herr]
  · intro key label h
    simp [renderLine, pyGet, h, pyStr]
  · intro key label s h
    simp [renderLine, pyGet, h, pyStr]
  · intro key label h
    simp [renderLine, pyGet, h, pyStr, pyRepr]

/-- Witness for C3 (amended): a body holding only `flight_number` renders
"N/A" for the four absent keys. -/
theorem C3_render_amended_witness :
    (gradio_search_flight "UAL123"
      (fun _ _ => PostResult.resp ⟨200, "sdesc",
        Except.ok (JsonValue.obj [("flight_number", JsonValue.str "UAL123")])⟩)).fst
    = "Flight Number: UAL123\nOrigin: N/A\nDestination: N/A\nDeparture Time: N/A\nArrival Time: N/A" :=
  (C3_render_amended "UAL123"
    (fun _ _ => PostResult.resp ⟨200, "sdesc",
      Except.ok (JsonValue.obj [("flight_number", JsonValue.str "UAL123")])⟩)
    ⟨200, "sdesc", Except.ok (JsonValue.obj [("flight_number", JsonValue.str "UAL123")])⟩
    [("flight_number", JsonValue.str "UAL123")]
    (by decide) rfl rfl rfl rfl).1

/-- Claim C8: for every non-empty input and every network outcome the
Presentation Client returns a string and never propagates an exception: a
transport-level RequestError is rendered through the first handler, any
other exception (bad status raised by `raise_for_status`, JSON decode
failure, or an exception while handling the decoded body) through the
catch-all handler, and each handler's output embeds the exception
description. -/
theorem C8_client_error_handling (fn : String) (post : String → JsonValue → PostResult)
    (hfn : fn ≠ "") :
    (∀ d, post GRADIO_SERVICE_URL (JsonValue.obj [("flight_number", JsonValue.str fn)]) =
        PostResult.exc (ClientExc.requestError d) →
      (gradio_search_flight fn post).fst =
        "An error occurred while requesting flight information: " ++ d)
    ∧ (∀ e, post GRADIO_SERVICE_URL (JsonValue.obj [("flight_number", JsonValue.str fn)]) =
        PostResult.exc e →
      (gradio_search_flight fn post).fst = handleExc e)
    ∧ (∀ r, post GRADIO_SERVICE_URL (JsonValue.obj [("flight_number", JsonValue.str fn)]) =
        PostResult.resp r →
      (is2xx r.status_code = false →
        (gradio_search_flight fn post).fst =
          "An unexpected error occurred: " ++ r.statusErrorDesc)
      ∧ (∀ d, is2xx r.status_code = true → r.body = Except.error d →
          (gradio_search_flight fn post).fst = "An unexpected error occurred: " ++ d)
      ∧ (∀ data e, is2xx r.status_code = true → r.body = Except.ok data →
          renderData data = Except.error e →
          (gradio_search_flight fn post).fst = handleExc e)
      ∧ (∀ data s, is2xx r.status_code = true → r.body = Except.ok data →
          renderData data = Except.ok s →
          (gradio_search_flight fn post).fst = s))
    ∧ (∀ e : ClientExc,
        handleExc e = "An error occurred while requesting flight information: " ++ e.desc ∨
        handleExc e = "An unexpected error occurred: " ++ e.desc) := by
  have hne : (fn == "") = false := by simp [hfn]
  refine ⟨?_, ?_, ?_, ?_⟩
  · intro d hpost
    simp [gradio_search_flight, hne, clientHandle, hpost, handleExc]
  · intro e hpost
    simp [gradio_search_flight, hne, clientHandle, hpost]
  · intro r hpost
    refine ⟨?_, ?_, ?_, ?_⟩
    · intro hstatus
      simp [gradio_search_flight, hne, clientHandle, hpost, hstatus, handleExc, ClientExc.desc]
    · intro d hstatus hbody
      simp [gradio_search_flight, hne, clientHandle, hpost, hstatus, hbody, handleExc,
        ClientExc.desc]
    · intro data e hstatus hbody hrender
      simp [gradio_search_flight, hne, clientHandle, hpost, hstatus, hbody, hrender]
    · intro data s hstatus hbody hrender
      simp [gradio_search_flight, hne, clientHandle, hpost, hstatus, hbody, hrender]
  · intro e
    cases e <;> simp [handleExc, ClientExc.desc]

/-- Witness for C8: a connection-refused RequestError is rendered through the
first handler. -/
theorem C8_client_error_handling_witness :
    (gradio_search_flight "UAL123"
      (fun _ _ => PostResult.exc (ClientExc.requestError "Connection refused"))).fst
    = "An error occurred while requesting flight information: Connection refused" :=
  (C8_client_error_handling "UAL123"
    (fun _ _ => PostResult.exc (ClientExc.requestError "Connection refused"))
    (by decide)).1 "Connection refused" rfl
